import Mathlib

/-!
Shallow embedding of src/bootstrap.js of vue-spa-boot: the BootStrap class
that aggregates module routes, builds the page context, attaches the
navigation guard, and runs the startup/completion sequence.

Conventions of the embedding:
* JS objects used as string-keyed records are association lists in insertion
  order; Object.assign is modelled by objAssign below.
* A module object is identified by its index in the boot options module
  list; route meta stamping stores that index, and the mutable per-module
  errorLoaded flag lives in the guard state, keyed by the index.
* The process-wide registry nt.httpErrorCodes and the guard's captured
  routeContext variable are fields of GuardState; object allocation
  (new HttpClient) is made observable through a counter so that object
  identity of clients can be stated.
* undefined/absent JS values are Option.none.
-/

namespace VueSpaBoot

/-- Entries of an error-code table: error code mapped to its description
(the shape of nt.httpErrorCodes and of a module's errors object). -/
abbrev ErrTable := List (String × String)

/-- Setting one property on a JS object modelled as an association list:
an existing key is overwritten in place, a new key is appended. -/
def setKey : ErrTable → String → String → ErrTable
  | [], k, v => [(k, v)]
  | (k0, v0) :: rest, k, v =>
    if k0 = k then (k0, v) :: rest else (k0, v0) :: setKey rest k v

/-- Object.assign(target, src): every own property of src is written onto
target; overlapping keys are overwritten, others preserved. -/
def objAssign (target src : ErrTable) : ErrTable :=
  src.foldl (fun acc kv => setKey acc kv.1 kv.2) target

/-- A route's meta record. The aggregation loop in startUp writes the owning
module into meta.module (modelled as the module's index in the module
list); extra stands for any other properties a module author put there. -/
structure RouteMeta where
  module : Option Nat := none
  extra : List (String × String) := []
deriving Repr, DecidableEq

/-- A vue-router route contributed by a module: path, optional name, and an
optional meta record (absent until the aggregation loop initializes it). -/
structure Route where
  path : String
  rname : Option String := none
  meta : Option RouteMeta := none
deriving Repr, DecidableEq

/-- The errors field of a module: either a loader function
(context) -> table (isFunction branch; the function itself is identified by
an id resolved in a loader environment, since its behaviour is
module-supplied) or a plain object of error codes (isPlainObject branch). -/
inductive ErrorsField where
  | efun (fid : Nat)
  | eobj (codes : ErrTable)
deriving Repr, DecidableEq

/-- A module as consumed by BootStrap: an optional list of routes and an
optional errors field. The mutable errorLoaded flag the guard writes onto
the module object is kept in GuardState, keyed by module index. -/
structure Module where
  routes : Option (List Route) := none
  errors : Option ErrorsField := none
deriving Repr, DecidableEq

/-- Configuration blob for one HTTP client (opaque to bootstrap.js). -/
abbrev ServerConfig := String

/-- An HttpClient instance: the config it was constructed with (none models
new HttpClient() with no argument, i.e. no URL rewriting) and an allocation
id, so that distinct new HttpClient(...) calls yield distinct values. -/
structure HttpClient where
  config : Option ServerConfig
  id : Nat
deriving Repr, DecidableEq

/-- Boot options record passed to the constructor; absent fields are none. -/
structure BootOpts where
  modules : List Module := []
  mount : Option String := none
  servers : Option (List (String × ServerConfig)) := none
  routePath : Option String := none
  routeName : Option String := none
  loginPath : Option String := none
  checkLogin : Option (Unit → Bool) := none

/-- The state of a BootStrap instance right after the constructor ran.
The routes field mirrors the instance property this.routes read in startUp:
no method of the class ever assigns it, so it is none (undefined).
VueRoot and the Authentication collaborator are opaque to every claim and
are not carried. -/
structure BootStrap where
  modules : List Module
  mount : String
  servers : Option (List (String × ServerConfig))
  routePath : Option String
  routeName : Option String
  loginPath : String
  checkLogin : Unit → Bool
  routes : Option (List Route)

/-- The constructor (bootstrap.js lines 26-43): defaults are
mount = '#xbn-app', loginPath = '/login', checkLogin = always true;
globalContext starts null (carried in GuardState). -/
def BootStrap.make (o : BootOpts) : BootStrap :=
  { modules := o.modules
  , mount := o.mount.getD "#xbn-app"
  , servers := o.servers
  , routePath := o.routePath
  , routeName := o.routeName
  , loginPath := o.loginPath.getD "/login"
  , checkLogin := o.checkLogin.getD (fun _ => true)
  , routes := none }

/-- Writing the owning module into one route (body of the forEach in
startUp lines 166-171): meta is initialized to an empty object when null,
then meta.module is set to the module (its index here). -/
def stampRoute (mid : Nat) (r : Route) : Route :=
  match r.meta with
  | none => { r with meta := some { module := some mid } }
  | some mta => { r with meta := some { mta with module := some mid } }

/-- One module's contribution to the aggregated table: its routes, each
stamped with the owning module; a module without a routes field
contributes nothing (the if at line 164). -/
def moduleRoutes (mid : Nat) (m : Module) : List Route :=
  match m.routes with
  | some rs => rs.map (stampRoute mid)
  | none => []

/-- The for-loop of startUp lines 162-174, with i the index of the first
module of the remaining list. -/
def aggregateAux : Nat → List Module → List Route
  | _, [] => []
  | i, m :: rest => moduleRoutes i m ++ aggregateAux (i + 1) rest

/-- The aggregated route table built by startUp into its local routes
array. -/
def aggregateRoutes (ms : List Module) : List Route :=
  aggregateAux 0 ms

/-- The page context built by getContext, plus the __checkUserLoggedin flag
that the portal module may set on it (read by started). vmapp and appCode,
written on the context prototype after mount, are not read by any claim. -/
structure Context where
  bootstrap : BootStrap
  servers : Option (List (String × HttpClient)) := none
  server : Option HttpClient := none
  params : List (String × String) := []
  checkUserLoggedin : Option Bool := none

/-- getContext (bootstrap.js lines 106-125). ctr is the allocation counter
threaded through every new HttpClient; the result pairs the context with
the advanced counter. With a servers config, one client per key in
insertion order, the one keyed "default" also aliased as ctx.server; with
no config, a single client constructed with no argument. -/
def BootStrap.getContext (bs : BootStrap) (ctr : Nat) : Context × Nat :=
  match bs.servers with
  | some cfgs =>
    let res := cfgs.foldl
      (fun (acc : List (String × HttpClient) × Option HttpClient × Nat) kv =>
        let client : HttpClient := { config := some kv.2, id := acc.2.2 }
        (acc.1 ++ [(kv.1, client)],
         if kv.1 = "default" then some client else acc.2.1,
         acc.2.2 + 1))
      ([], none, ctr)
    ({ bootstrap := bs, servers := some res.1, server := res.2.1 }, res.2.2)
  | none =>
    ({ bootstrap := bs, server := some { config := none, id := ctr } }, ctr + 1)

/-- Modelled from the spec: attachRouteContext (line 60) and started
(line 204) call this._getContext(), which is not defined in the file under
src/ (only getContext is). Per the spec (ContextFactory "may be invoked
once (singleton context) or on every navigation", BootOptions.routeContext
default false selecting the singleton), _getContext returns the memoized
singleton held in globalContext, creating it through getContext on first
use. g is the current globalContext, ctr the allocation counter. -/
def BootStrap.getContextMemo (bs : BootStrap) (g : Option Context) (ctr : Nat) :
    Context × Nat :=
  match g with
  | some c => (c, ctr)
  | none => bs.getContext ctr

/-- What the guard's beforeEach callback does with its next continuation:
next(false) (abort), next() (allow), or neither because the async callback
rejected before reaching next(). -/
inductive GuardOutcome where
  | abort
  | allow
  | failed
deriving Repr, DecidableEq

/-- The mutable state the navigation guard touches: the process-wide
registry nt.httpErrorCodes, the set of module indices whose errorLoaded
flag is true, the guard's captured routeContext variable, the bootstrap's
globalContext, the HttpClient allocation counter, plus two observers of the
execution history: the ids of the loader invocations made so far (in
order), and how many Object.assign merges into the registry ran. -/
structure GuardState where
  httpErrorCodes : ErrTable
  errorLoaded : List Nat
  routeContext : Option Context
  globalContext : Option Context
  allocCount : Nat
  loaderCalls : List Nat
  mergeCount : Nat

/-- The state at boot: empty registry, no module loaded, routeContext and
globalContext null. -/
def GuardState.init : GuardState :=
  { httpErrorCodes := []
  , errorLoaded := []
  , routeContext := none
  , globalContext := none
  , allocCount := 0
  , loaderCalls := []
  , mergeCount := 0 }

/-- The navigation target handed to the guard: to.fullPath, to.params and
to.meta as stamped by aggregation. -/
structure NavTarget where
  fullPath : String
  params : List (String × String) := []
  meta : Option RouteMeta := none
deriving Repr, DecidableEq

/-- The try-block of the guard (lines 64-79) once a module is in hand, for
the module at index mid. A function errors field not yet loaded is invoked
with the context and awaited: on success its table is merged into
nt.httpErrorCodes and the module's errorLoaded flag is set; on throw or
rejection control reaches the catch block, which calls console.err - the
Console standard defines console.error but no err method, so the catch
itself raises a TypeError and the async callback rejects without ever
calling next() (outcome failed). A plain-object errors field is merged on
every visit. -/
def guardLoadErrors (loaders : Nat → Context → Except String ErrTable)
    (mid : Nat) (m : Module) (ctx : Context) (s : GuardState) :
    GuardState × GuardOutcome :=
  match m.errors with
  | some (ErrorsField.efun fid) =>
    if mid ∈ s.errorLoaded then
      (s, GuardOutcome.allow)
    else
      let s2 := { s with loaderCalls := s.loaderCalls ++ [fid] }
      match loaders fid ctx with
      | Except.ok errs =>
        ({ s2 with httpErrorCodes := objAssign s2.httpErrorCodes errs,
                   errorLoaded := mid :: s2.errorLoaded,
                   mergeCount := s2.mergeCount + 1 }, GuardOutcome.allow)
      | Except.error _ => (s2, GuardOutcome.failed)
  | some (ErrorsField.eobj tbl) =>
    ({ s with httpErrorCodes := objAssign s.httpErrorCodes tbl,
              mergeCount := s.mergeCount + 1 }, GuardOutcome.allow)
  | none => (s, GuardOutcome.allow)

/-- One run of the beforeEach callback installed by attachRouteContext
(lines 54-86). A navigation to fullPath '/' is answered with next(false)
immediately. Otherwise the context is obtained (memoized singleton),
to.params written onto it, and the destination's owning module - reached
through to.meta.module, stamped as an index into bs.modules - gets its
deferred initialization via guardLoadErrors; absent meta or module means
the try-block does nothing and next() is called. loaders gives each loader
function's behaviour on a context: ok (resolved table) or error (throw or
rejection). -/
def guardStep (bs : BootStrap) (loaders : Nat → Context → Except String ErrTable)
    (s : GuardState) (t : NavTarget) : GuardState × GuardOutcome :=
  if t.fullPath = "/" then
    (s, GuardOutcome.abort)
  else
    let pair := bs.getContextMemo s.globalContext s.allocCount
    let ctx : Context := { pair.1 with params := t.params }
    let s1 : GuardState :=
      { s with routeContext := some ctx, globalContext := some ctx,
               allocCount := pair.2 }
    match t.meta.bind RouteMeta.module with
    | none => (s1, GuardOutcome.allow)
    | some mid =>
      match bs.modules[mid]? with
      | none => (s1, GuardOutcome.allow)
      | some m => guardLoadErrors loaders mid m ctx s1

/-- A sequence of navigations, each processed by the guard in order; the
final state. -/
def guardRun (bs : BootStrap) (loaders : Nat → Context → Except String ErrTable) :
    GuardState → List NavTarget → GuardState
  | s, [] => s
  | s, t :: ts => guardRun bs loaders (guardStep bs loaders s t).1 ts

/-- The Vue.mixin beforeCreate hook (lines 88-99): a component created now
gets this.ctx = the guard's captured routeContext variable as it currently
stands. -/
def componentCtx (s : GuardState) : Option Context :=
  s.routeContext

/-- What happens to an error reported to Vue.config.errorHandler
(configVue, lines 130-139): forwarded to vm.ctx.onError when the failing
component's ctx is set, otherwise nothing is done with it. -/
inductive ErrorOutcome where
  | forwarded
  | unhandled
deriving Repr, DecidableEq

/-- The global error handler's dispatch on the failing component's ctx. -/
def vueErrorHandler (vmCtx : Option Context) : ErrorOutcome :=
  match vmCtx with
  | some _ => ErrorOutcome.forwarded
  | none => ErrorOutcome.unhandled

/-- The options object passed to new VueRouter in startUp line 177-179. -/
structure VueRouterCfg where
  routes : Option (List Route)
deriving Repr, DecidableEq

/-- The route-related part of startUp (lines 159-179): the local routes
array is filled by aggregation, and the router is then constructed with
routes: this.routes - the never-assigned instance field, not the local
array. The pair is (local aggregated table, router constructor options). -/
def BootStrap.startUpRouter (bs : BootStrap) : List Route × VueRouterCfg :=
  (aggregateRoutes bs.modules, { routes := bs.routes })

/-- Where started / pageHome / pageLogin send the router: replace to the
login path, replace to a path, replace to a named route, or no navigation
at all. -/
inductive StartedNav where
  | login (path : String)
  | toPath (path : String)
  | toName (n : String)
  | stay
deriving Repr, DecidableEq

/-- The routeName half of pageHome (lines 219-223): a truthy routeName is
navigated to by name, otherwise nothing happens. -/
def routeNameNav : Option String → StartedNav
  | some n => if n = "" then StartedNav.stay else StartedNav.toName n
  | none => StartedNav.stay

/-- pageHome (lines 215-224): a truthy routePath wins over routeName; with
neither configured the method does nothing. Truthiness of a string field is
present-and-nonempty. -/
def BootStrap.pageHomeNav (bs : BootStrap) : StartedNav :=
  match bs.routePath with
  | some p => if p = "" then routeNameNav bs.routeName else StartedNav.toPath p
  | none => routeNameNav bs.routeName

/-- pageLogin (lines 230-234): replace to the configured login path. -/
def BootStrap.pageLoginNav (bs : BootStrap) : StartedNav :=
  StartedNav.login bs.loginPath

/-- The completion policy of started (lines 197-210): at the root location
(hash '#/'), go to the login page exactly when the context flag
__checkUserLoggedin is explicitly false (strict === comparison), otherwise
go to the configured home; away from the root do nothing. ctx is the
memoized context whose flag the portal module may have set. -/
def BootStrap.startedNav (bs : BootStrap) (locationHash : String) (ctx : Context) :
    StartedNav :=
  if locationHash = "#/" then
    if ctx.checkUserLoggedin = some false then bs.pageLoginNav else bs.pageHomeNav
  else StartedNav.stay


/-! Helper lemmas shared by the claim theorems. -/

/-- Helper: any navigation whose fullPath is the root is answered with
next(false) before the guard touches any state. -/
theorem guardStep_root (bs : BootStrap) (loaders : Nat → Context → Except String ErrTable)
    (s : GuardState) (t : NavTarget) (h : t.fullPath = "/") :
    guardStep bs loaders s t = (s, GuardOutcome.abort) := by
  simp [guardStep, h]

/-- Helper: a run made only of root navigations leaves the guard state
untouched. -/
theorem guardRun_roots (bs : BootStrap) (loaders : Nat → Context → Except String ErrTable) :
    ∀ (ts : List NavTarget) (s : GuardState),
    (∀ t ∈ ts, t.fullPath = "/") → guardRun bs loaders s ts = s
  | [], _, _ => rfl
  | t :: ts, s, h => by
    simp only [guardRun, guardStep_root bs loaders s t (h t (List.mem_cons_self t ts))]
    exact guardRun_roots bs loaders ts s (fun x hx => h x (List.mem_cons_of_mem t hx))

/-! Concrete fixtures used by witnesses and counterexamples. -/

/-- A loader environment where every loader resolves to the table E1. -/
def sampleLoaders : Nat → Context → Except String ErrTable :=
  fun _ _ => Except.ok [("E1", "x")]

/-- A loader environment where every loader throws or rejects. -/
def throwingLoaders : Nat → Context → Except String ErrTable :=
  fun _ _ => Except.error "boom"

/-- The initial no-op navigation to the application root. -/
def rootTarget : NavTarget := { fullPath := "/" }

/-- A module contributing one route and a loader-function errors field. -/
def moduleE : Module :=
  { routes := some [{ path := "/a" }], errors := some (ErrorsField.efun 0) }

/-- A module contributing one route and no errors field. -/
def moduleB : Module := { routes := some [{ path := "/b" }] }

/-- A module whose errors loader (id 7) will be exercised on failure. -/
def moduleThrow : Module :=
  { routes := some [{ path := "/t" }], errors := some (ErrorsField.efun 7) }

/-- Navigation to moduleE's route, meta stamped with module index 0. -/
def targetA : NavTarget := { fullPath := "/a", meta := some { module := some 0 } }

/-- Navigation to moduleThrow's route, meta stamped with module index 0. -/
def targetT : NavTarget := { fullPath := "/t", meta := some { module := some 0 } }

/-- C5: a navigation whose destination is the application root, in
particular the framework's initial one arriving before startUp has
completed, is answered with next(false) and nothing else: no context is
built, no error codes are merged, the whole guard state is returned
untouched, and the outcome is abort (not failed). -/
theorem root_navigation_aborted (bs : BootStrap)
    (loaders : Nat → Context → Except String ErrTable)
    (s : GuardState) (t : NavTarget) (h : t.fullPath = "/") :
    guardStep bs loaders s t = (s, GuardOutcome.abort) :=
  guardStep_root bs loaders s t h

/-- C5 witness: the concrete root navigation from the boot state. -/
theorem root_navigation_aborted_witness :
    guardStep (BootStrap.make {}) sampleLoaders GuardState.init rootTarget
      = (GuardState.init, GuardOutcome.abort) :=
  root_navigation_aborted (BootStrap.make {}) sampleLoaders GuardState.init rootTarget rfl

/-- C10: before the guard has completed for any allowed navigation - that
is, after any sequence of navigations all of which were the aborted root
ones, including the empty sequence at mount time - the captured
routeContext is still null, so a component created then gets this.ctx =
null from the mixin, and the global error handler, seeing no ctx on the
failing component, does not call context.onError and leaves the error
unhandled. -/
theorem component_ctx_null_before_first_allowed (bs : BootStrap)
    (loaders : Nat → Context → Except String ErrTable)
    (ts : List NavTarget) (h : ∀ t ∈ ts, t.fullPath = "/") :
    componentCtx (guardRun bs loaders GuardState.init ts) = none
    ∧ vueErrorHandler (componentCtx (guardRun bs loaders GuardState.init ts))
        = ErrorOutcome.unhandled := by
  rw [guardRun_roots bs loaders ts GuardState.init h]
  exact ⟨rfl, rfl⟩

/-- C10 witness: after the initial aborted root navigation, components see
ctx = null and the error handler leaves errors unhandled. -/
theorem component_ctx_null_before_first_allowed_witness :
    componentCtx (guardRun (BootStrap.make {}) sampleLoaders GuardState.init [rootTarget]) = none
    ∧ vueErrorHandler
        (componentCtx (guardRun (BootStrap.make {}) sampleLoaders GuardState.init [rootTarget]))
        = ErrorOutcome.unhandled :=
  component_ctx_null_before_first_allowed (BootStrap.make {}) sampleLoaders [rootTarget]
    (by decide)

/-- C8 counterexample: with mount omitted the constructor defaults the
mount target to "#xbn-app", not "#app" as the claim states. -/
theorem default_mount_not_app :
    (BootStrap.make {}).mount = "#xbn-app" ∧ (BootStrap.make {}).mount ≠ "#app" := by
  exact ⟨rfl, by decide⟩

/-- C8 amended: when the corresponding BootOptions field is omitted the
constructor sets the mount target to "#xbn-app", the login path to
"/login", and the auth-check predicate to a function that always returns
true. -/
theorem constructor_defaults (o : BootOpts)
    (hm : o.mount = none) (hl : o.loginPath = none) (hc : o.checkLogin = none) :
    (BootStrap.make o).mount = "#xbn-app"
    ∧ (BootStrap.make o).loginPath = "/login"
    ∧ ∀ u, (BootStrap.make o).checkLogin u = true := by
  refine ⟨?_, ?_, ?_⟩
  · simp [BootStrap.make, hm]
  · simp [BootStrap.make, hl]
  · intro u; simp [BootStrap.make, hc]

/-- C8 witness: the defaults on a fully empty options record. -/
theorem constructor_defaults_witness :
    (BootStrap.make {}).mount = "#xbn-app"
    ∧ (BootStrap.make {}).loginPath = "/login"
    ∧ ∀ u, (BootStrap.make {}).checkLogin u = true :=
  constructor_defaults {} rfl rfl rfl

/-- C3: startUp aggregates the module routes into its local routes array
but then constructs the router with routes: this.routes, an instance field
no method ever assigns; at a module list contributing one route the router
constructor receives undefined while the aggregated table is nonempty. -/
theorem router_gets_undefined_routes :
    ((BootStrap.make { modules := [moduleE] }).startUpRouter).2.routes = none
    ∧ ((BootStrap.make { modules := [moduleE] }).startUpRouter).1
        = [{ path := "/a", meta := some { module := some 0 } }]
    ∧ ((BootStrap.make { modules := [moduleE] }).startUpRouter).1 ≠ [] := by
  refine ⟨rfl, rfl, by decide⟩

/-- C2: for a navigation whose module errors loader throws, the catch
block itself raises a TypeError (console.err is not a function on the
standard console), so the guard callback rejects and next() is never
called: the outcome is failed, not allow, contradicting the claim that the
failure is logged and the navigation still completes. -/
theorem guard_failure_never_calls_next :
    (guardStep (BootStrap.make { modules := [moduleThrow] }) throwingLoaders
        GuardState.init targetT).2 = GuardOutcome.failed
    ∧ (guardStep (BootStrap.make { modules := [moduleThrow] }) throwingLoaders
        GuardState.init targetT).2 ≠ GuardOutcome.allow := by
  refine ⟨rfl, by decide⟩


/-- Helper: stamping a route never changes its path. -/
theorem stampRoute_path (mid : Nat) (r : Route) : (stampRoute mid r).path = r.path := by
  cases h : r.meta <;> simp [stampRoute, h]

/-- Helper: a stamped route has a meta record whose module is the stamp. -/
theorem stampRoute_meta (mid : Nat) (r : Route) :
    ∃ mta : RouteMeta, (stampRoute mid r).meta = some mta ∧ mta.module = some mid := by
  cases h : r.meta with
  | none => exact ⟨{ module := some mid }, by simp [stampRoute, h], rfl⟩
  | some mta => exact ⟨{ mta with module := some mid }, by simp [stampRoute, h], rfl⟩

/-- Helper: one module's contribution keeps the module's own paths in the
module's own order; a module with no routes field contributes nothing. -/
theorem moduleRoutes_path (mid : Nat) (m : Module) :
    (moduleRoutes mid m).map Route.path = (m.routes.getD []).map Route.path := by
  cases h : m.routes with
  | none => simp [moduleRoutes, h]
  | some rs => simp [moduleRoutes, h, List.map_map, Function.comp_def, stampRoute_path]

/-- Helper: the aggregation loop concatenates the modules' paths in module
order. -/
theorem aggregateAux_path (i : Nat) (ms : List Module) :
    (aggregateAux i ms).map Route.path
      = (ms.map (fun m => (m.routes.getD []).map Route.path)).flatten := by
  induction ms generalizing i with
  | nil => rfl
  | cons m rest ih => simp [aggregateAux, moduleRoutes_path, ih]

/-- Helper: every aggregated route is the stamp of a route of the module
sitting at the stamped index. -/
theorem aggregateAux_mem (i : Nat) (ms : List Module) (r : Route)
    (hr : r ∈ aggregateAux i ms) :
    ∃ j m r0, ms.get? j = some m ∧ r0 ∈ m.routes.getD []
      ∧ r = stampRoute (i + j) r0 := by
  induction ms generalizing i with
  | nil => simp [aggregateAux] at hr
  | cons m rest ih =>
    rw [aggregateAux, List.mem_append] at hr
    rcases hr with hm | hrest
    · cases hmr : m.routes with
      | none => rw [moduleRoutes, hmr] at hm; simp at hm
      | some rs =>
        rw [moduleRoutes, hmr, List.mem_map] at hm
        obtain ⟨r0, hr0, hst⟩ := hm
        exact ⟨0, m, r0, rfl, by rw [hmr]; exact hr0, hst.symm⟩
    · obtain ⟨j, m1, r0, hj, hr0, hst⟩ := ih (i + 1) hrest
      refine ⟨j + 1, m1, r0, by simpa using hj, hr0, ?_⟩
      rw [hst]
      congr 1
      omega

/-- C4: aggregation yields the concatenation, in module-list order, of each
module's own route sequence in the module's own order (path for path);
every aggregated route carries a non-null meta record whose module field
names the owning module (the module found at the stamped index), and each
aggregated route is that owner's route with the stamp applied; a module
without a routes field contributes no entries (its summand is empty). -/
theorem aggregate_order_and_ownership (M : List Module) :
    (aggregateRoutes M).map Route.path
      = (M.map (fun m => (m.routes.getD []).map Route.path)).flatten
    ∧ ∀ r ∈ aggregateRoutes M, ∃ mta : RouteMeta, r.meta = some mta
        ∧ ∃ i : Nat, mta.module = some i
        ∧ ∃ m : Module, M.get? i = some m
        ∧ ∃ r0 ∈ m.routes.getD [], r = stampRoute i r0 := by
  constructor
  · exact aggregateAux_path 0 M
  · intro r hr
    obtain ⟨j, m, r0, hj, hr0, hst⟩ := aggregateAux_mem 0 M r hr
    rw [Nat.zero_add] at hst
    obtain ⟨mta, hmeta, hmod⟩ := stampRoute_meta j r0
    exact ⟨mta, by rw [hst]; exact hmeta, j, hmod, m, hj, r0, hr0, hst⟩

/-- C4 witness: the two-module scenario, with the table evaluated. -/
theorem aggregate_order_and_ownership_witness :
    (aggregateRoutes [moduleE, moduleB]).map Route.path = ["/a", "/b"]
    ∧ ∀ r ∈ aggregateRoutes [moduleE, moduleB], ∃ mta : RouteMeta, r.meta = some mta
        ∧ ∃ i : Nat, mta.module = some i
        ∧ ∃ m : Module, [moduleE, moduleB].get? i = some m
        ∧ ∃ r0 ∈ m.routes.getD [], r = stampRoute i r0 := by
  have h := aggregate_order_and_ownership [moduleE, moduleB]
  exact ⟨by rw [h.1]; rfl, h.2⟩


/-- Helper: an allowed non-root navigation into a module whose loader-type
errors field has not yet been loaded, with a loader that resolves: the
loader is invoked (recorded once), its table is merged into the registry by
one Object.assign, the module's errorLoaded flag is set, and next() is
called. -/
theorem guardStep_fields_load (bs : BootStrap)
    (loaders : Nat → Context → Except String ErrTable)
    {mid fid : Nat} {m : Module} {tbl : ErrTable} (s : GuardState) (t : NavTarget)
    (ht : ¬ t.fullPath = "/") (hmeta : t.meta.bind RouteMeta.module = some mid)
    (hm : bs.modules[mid]? = some m) (hf : m.errors = some (ErrorsField.efun fid))
    (hnl : mid ∉ s.errorLoaded) (hok : ∀ c, loaders fid c = Except.ok tbl) :
    (guardStep bs loaders s t).1.httpErrorCodes = objAssign s.httpErrorCodes tbl
    ∧ (guardStep bs loaders s t).1.errorLoaded = mid :: s.errorLoaded
    ∧ (guardStep bs loaders s t).1.loaderCalls = s.loaderCalls ++ [fid]
    ∧ (guardStep bs loaders s t).1.mergeCount = s.mergeCount + 1
    ∧ (guardStep bs loaders s t).2 = GuardOutcome.allow := by
  simp [guardStep, ht, hmeta, hm, guardLoadErrors, hf, hnl, hok]

/-- Helper: an allowed non-root navigation into a module whose loader-type
errors field is already loaded changes neither registry nor flags nor the
invocation record, and next() is called. -/
theorem guardStep_fields_flagged (bs : BootStrap)
    (loaders : Nat → Context → Except String ErrTable)
    {mid fid : Nat} {m : Module} (s : GuardState) (t : NavTarget)
    (ht : ¬ t.fullPath = "/") (hmeta : t.meta.bind RouteMeta.module = some mid)
    (hm : bs.modules[mid]? = some m) (hf : m.errors = some (ErrorsField.efun fid))
    (hl : mid ∈ s.errorLoaded) :
    (guardStep bs loaders s t).1.httpErrorCodes = s.httpErrorCodes
    ∧ (guardStep bs loaders s t).1.errorLoaded = s.errorLoaded
    ∧ (guardStep bs loaders s t).1.loaderCalls = s.loaderCalls
    ∧ (guardStep bs loaders s t).1.mergeCount = s.mergeCount
    ∧ (guardStep bs loaders s t).2 = GuardOutcome.allow := by
  simp [guardStep, ht, hmeta, hm, guardLoadErrors, hf, hl]

/-- Helper: an allowed non-root navigation into a module whose loader-type
errors field has not yet been loaded, with a loader that throws or
rejects: the invocation is recorded, but the registry, the errorLoaded
flags and the merge count stay as they were, and next() is never reached
because the catch block itself fails. -/
theorem guardStep_fields_throw (bs : BootStrap)
    (loaders : Nat → Context → Except String ErrTable)
    {mid fid : Nat} {m : Module} {e : String} (s : GuardState) (t : NavTarget)
    (ht : ¬ t.fullPath = "/") (hmeta : t.meta.bind RouteMeta.module = some mid)
    (hm : bs.modules[mid]? = some m) (hf : m.errors = some (ErrorsField.efun fid))
    (hnl : mid ∉ s.errorLoaded) (herr : ∀ c, loaders fid c = Except.error e) :
    (guardStep bs loaders s t).1.httpErrorCodes = s.httpErrorCodes
    ∧ (guardStep bs loaders s t).1.errorLoaded = s.errorLoaded
    ∧ (guardStep bs loaders s t).1.loaderCalls = s.loaderCalls ++ [fid]
    ∧ (guardStep bs loaders s t).1.mergeCount = s.mergeCount
    ∧ (guardStep bs loaders s t).2 = GuardOutcome.failed := by
  simp [guardStep, ht, hmeta, hm, guardLoadErrors, hf, hnl, herr]

/-- Helper: once a module's errorLoaded flag is set, any run of allowed
navigations into that module leaves registry, flags, invocation record and
merge count untouched. -/
theorem guardRun_flagged (bs : BootStrap)
    (loaders : Nat → Context → Except String ErrTable)
    {mid fid : Nat} {m : Module}
    (hm : bs.modules[mid]? = some m) (hf : m.errors = some (ErrorsField.efun fid)) :
    ∀ (ts : List NavTarget) (s : GuardState), mid ∈ s.errorLoaded →
    (∀ t ∈ ts, ¬ t.fullPath = "/" ∧ t.meta.bind RouteMeta.module = some mid) →
    (guardRun bs loaders s ts).httpErrorCodes = s.httpErrorCodes
    ∧ (guardRun bs loaders s ts).errorLoaded = s.errorLoaded
    ∧ (guardRun bs loaders s ts).loaderCalls = s.loaderCalls
    ∧ (guardRun bs loaders s ts).mergeCount = s.mergeCount
  | [], _, _, _ => ⟨rfl, rfl, rfl, rfl⟩
  | t :: ts, s, hin, hall => by
    have hh := hall t (List.mem_cons_self t ts)
    have h1 := guardStep_fields_flagged bs loaders s t hh.1 hh.2 hm hf hin
    have ih := guardRun_flagged bs loaders hm hf ts (guardStep bs loaders s t).1
      (by rw [h1.2.1]; exact hin)
      (fun x hx => hall x (List.mem_cons_of_mem t hx))
    simp only [guardRun]
    exact ⟨ih.1.trans h1.1, ih.2.1.trans h1.2.1, ih.2.2.1.trans h1.2.2.1,
      ih.2.2.2.trans h1.2.2.2.1⟩

/-- C1: for a module whose errors field is a function with a resolving
loader, any nonempty sequence of navigations into that module's routes
invokes the loader exactly once (the invocation record ends up a
singleton) and merges its table into the registry exactly once (one merge
total, the registry being the starting registry with the table assigned
once); the module's errorLoaded flag is true afterwards, and it remains
true through every later visit, so no later visit re-invokes the loader. -/
theorem errors_loader_once (bs : BootStrap)
    (loaders : Nat → Context → Except String ErrTable)
    (mid fid : Nat) (m : Module) (tbl : ErrTable)
    (hm : bs.modules[mid]? = some m)
    (hf : m.errors = some (ErrorsField.efun fid))
    (hok : ∀ c, loaders fid c = Except.ok tbl)
    (s0 : GuardState) (h0 : mid ∉ s0.errorLoaded) (hc : s0.loaderCalls = [])
    (hmc : s0.mergeCount = 0)
    (ts : List NavTarget) (hne : ts ≠ [])
    (hall : ∀ t ∈ ts, ¬ t.fullPath = "/" ∧ t.meta.bind RouteMeta.module = some mid) :
    (guardRun bs loaders s0 ts).loaderCalls = [fid]
    ∧ (guardRun bs loaders s0 ts).httpErrorCodes = objAssign s0.httpErrorCodes tbl
    ∧ (guardRun bs loaders s0 ts).mergeCount = 1
    ∧ mid ∈ (guardRun bs loaders s0 ts).errorLoaded := by
  cases ts with
  | nil => exact absurd rfl hne
  | cons t ts =>
    have hh := hall t (List.mem_cons_self t ts)
    have h1 := guardStep_fields_load bs loaders s0 t hh.1 hh.2 hm hf h0 hok
    have hin : mid ∈ (guardStep bs loaders s0 t).1.errorLoaded := by
      rw [h1.2.1]; exact List.mem_cons_self mid s0.errorLoaded
    have hr := guardRun_flagged bs loaders hm hf ts (guardStep bs loaders s0 t).1 hin
      (fun x hx => hall x (List.mem_cons_of_mem t hx))
    simp only [guardRun]
    refine ⟨?_, ?_, ?_, ?_⟩
    · rw [hr.2.2.1, h1.2.2.1, hc]; rfl
    · rw [hr.1, h1.1]
    · rw [hr.2.2.2, h1.2.2.2.1, hmc]
    · rw [hr.2.1]; exact hin

/-- C1 witness: two successive navigations into moduleE's route from the
boot state load and merge once. -/
theorem errors_loader_once_witness :
    (guardRun (BootStrap.make { modules := [moduleE] }) sampleLoaders GuardState.init
        [targetA, targetA]).loaderCalls = [0]
    ∧ (guardRun (BootStrap.make { modules := [moduleE] }) sampleLoaders GuardState.init
        [targetA, targetA]).httpErrorCodes
        = objAssign GuardState.init.httpErrorCodes [("E1", "x")]
    ∧ (guardRun (BootStrap.make { modules := [moduleE] }) sampleLoaders GuardState.init
        [targetA, targetA]).mergeCount = 1
    ∧ 0 ∈ (guardRun (BootStrap.make { modules := [moduleE] }) sampleLoaders GuardState.init
        [targetA, targetA]).errorLoaded :=
  errors_loader_once (BootStrap.make { modules := [moduleE] }) sampleLoaders 0 0 moduleE
    [("E1", "x")] rfl rfl (fun _ => rfl) GuardState.init (by decide) rfl rfl
    [targetA, targetA] (by decide) (by decide)

/-- C9: when the loader of a not-yet-loaded module throws or rejects, that
navigation leaves the registry unchanged (no partial merge, merge count
unchanged) and the errorLoaded flag still unset, and a second navigation
into the same module invokes the loader again: the at-most-once guarantee
holds only for successful loads. -/
theorem errors_loader_failure_no_merge (bs : BootStrap)
    (loaders : Nat → Context → Except String ErrTable)
    (mid fid : Nat) (m : Module) (e : String)
    (hm : bs.modules[mid]? = some m)
    (hf : m.errors = some (ErrorsField.efun fid))
    (herr : ∀ c, loaders fid c = Except.error e)
    (s : GuardState) (h0 : mid ∉ s.errorLoaded)
    (t t2 : NavTarget)
    (ht : ¬ t.fullPath = "/") (hmeta : t.meta.bind RouteMeta.module = some mid)
    (ht2 : ¬ t2.fullPath = "/") (hmeta2 : t2.meta.bind RouteMeta.module = some mid) :
    (guardStep bs loaders s t).1.httpErrorCodes = s.httpErrorCodes
    ∧ (guardStep bs loaders s t).1.errorLoaded = s.errorLoaded
    ∧ (guardStep bs loaders s t).1.mergeCount = s.mergeCount
    ∧ (guardStep bs loaders s t).1.loaderCalls = s.loaderCalls ++ [fid]
    ∧ (guardStep bs loaders (guardStep bs loaders s t).1 t2).1.loaderCalls
        = s.loaderCalls ++ [fid] ++ [fid] := by
  have h1 := guardStep_fields_throw bs loaders s t ht hmeta hm hf h0 herr
  have h0b : mid ∉ (guardStep bs loaders s t).1.errorLoaded := by
    rw [h1.2.1]; exact h0
  have h2 := guardStep_fields_throw bs loaders (guardStep bs loaders s t).1 t2 ht2 hmeta2
    hm hf h0b herr
  exact ⟨h1.1, h1.2.1, h1.2.2.2.1, h1.2.2.1,
    by rw [h2.2.2.1, h1.2.2.1]⟩

/-- C9 witness: two navigations into moduleThrow's route with a rejecting
loader, from the boot state. -/
theorem errors_loader_failure_no_merge_witness :
    (guardStep (BootStrap.make { modules := [moduleThrow] }) throwingLoaders
        GuardState.init targetT).1.httpErrorCodes = GuardState.init.httpErrorCodes
    ∧ (guardStep (BootStrap.make { modules := [moduleThrow] }) throwingLoaders
        GuardState.init targetT).1.errorLoaded = GuardState.init.errorLoaded
    ∧ (guardStep (BootStrap.make { modules := [moduleThrow] }) throwingLoaders
        GuardState.init targetT).1.mergeCount = GuardState.init.mergeCount
    ∧ (guardStep (BootStrap.make { modules := [moduleThrow] }) throwingLoaders
        GuardState.init targetT).1.loaderCalls = GuardState.init.loaderCalls ++ [7]
    ∧ (guardStep (BootStrap.make { modules := [moduleThrow] }) throwingLoaders
        (guardStep (BootStrap.make { modules := [moduleThrow] }) throwingLoaders
          GuardState.init targetT).1 targetT).1.loaderCalls
        = GuardState.init.loaderCalls ++ [7] ++ [7] :=
  errors_loader_failure_no_merge (BootStrap.make { modules := [moduleThrow] })
    throwingLoaders 0 7 moduleThrow "boom" rfl rfl (fun _ => rfl) GuardState.init
    (by decide) targetT targetT (by decide) rfl (by decide) rfl


/-- C6: with no servers config, getContext returns a context whose server
is one client constructed with no configuration (no URL rewriting) and
whose servers field is absent; with servers = default -> cfgA,
billing -> cfgB, the context's servers map holds two distinct client
instances built from the respective sub-configurations, and the context's
server is the very client registered under "default". -/
theorem getContext_server_clients (bs1 : BootStrap) (n1 : Nat) (h1 : bs1.servers = none)
    (bs2 : BootStrap) (cfgA cfgB : ServerConfig) (n2 : Nat)
    (h2 : bs2.servers = some [("default", cfgA), ("billing", cfgB)]) :
    ((bs1.getContext n1).1.server = some { config := none, id := n1 }
      ∧ (bs1.getContext n1).1.servers = none)
    ∧ ∃ cA cB : HttpClient,
        (bs2.getContext n2).1.servers = some [("default", cA), ("billing", cB)]
        ∧ cA.config = some cfgA ∧ cB.config = some cfgB ∧ cA ≠ cB
        ∧ (bs2.getContext n2).1.server = some cA := by
  constructor
  · constructor
    · simp [BootStrap.getContext, h1]
    · simp [BootStrap.getContext, h1]
  · refine ⟨{ config := some cfgA, id := n2 }, { config := some cfgB, id := n2 + 1 },
      ?_, rfl, rfl, ?_, ?_⟩
    · simp [BootStrap.getContext, h2]
    · intro hEq
      have hid := congrArg HttpClient.id hEq
      simp at hid
    · simp [BootStrap.getContext, h2]

/-- C6 witness: concrete configs cfgA and cfgB. -/
theorem getContext_server_clients_witness :
    (((BootStrap.make {}).getContext 0).1.server = some { config := none, id := 0 }
      ∧ ((BootStrap.make {}).getContext 0).1.servers = none)
    ∧ ∃ cA cB : HttpClient,
        ((BootStrap.make { servers := some [("default", "cfgA"), ("billing", "cfgB")] }
            ).getContext 0).1.servers = some [("default", cA), ("billing", cB)]
        ∧ cA.config = some "cfgA" ∧ cB.config = some "cfgB" ∧ cA ≠ cB
        ∧ ((BootStrap.make { servers := some [("default", "cfgA"), ("billing", "cfgB")] }
            ).getContext 0).1.server = some cA :=
  getContext_server_clients (BootStrap.make {}) 0 rfl
    (BootStrap.make { servers := some [("default", "cfgA"), ("billing", "cfgB")] })
    "cfgA" "cfgB" 0 rfl

/-- Helper: pageHome never navigates to the login page; its outcomes are a
path replace, a name replace, or nothing. -/
theorem pageHomeNav_ne_login (bs : BootStrap) (p : String) :
    bs.pageHomeNav ≠ StartedNav.login p := by
  have hn : ∀ o : Option String, routeNameNav o ≠ StartedNav.login p := by
    intro o
    cases o with
    | none => simp [routeNameNav]
    | some n =>
      by_cases hne : n = "" <;> simp [routeNameNav, hne]
  unfold BootStrap.pageHomeNav
  cases hrp : bs.routePath with
  | none => exact hn _
  | some q =>
    by_cases hq : q = "" <;> simp [hq]
    exact hn _

/-- C7: completion policy at the application root (hash '#/'): the
orchestrator navigates to the configured login path exactly when the
context flag __checkUserLoggedin is strictly false; in every other case -
including the flag being absent, which is treated as logged-in - it runs
pageHome, which prefers a configured routePath over a configured
routeName. -/
theorem started_policy (bs : BootStrap) (ctx : Context) :
    (bs.startedNav "#/" ctx = StartedNav.login bs.loginPath
        ↔ ctx.checkUserLoggedin = some false)
    ∧ (ctx.checkUserLoggedin ≠ some false → bs.startedNav "#/" ctx = bs.pageHomeNav)
    ∧ (∀ p n : String, bs.routePath = some p → p ≠ "" → bs.routeName = some n →
        bs.pageHomeNav = StartedNav.toPath p) := by
  refine ⟨⟨?_, ?_⟩, ?_, ?_⟩
  · intro h
    by_cases hf : ctx.checkUserLoggedin = some false
    · exact hf
    · exfalso
      apply pageHomeNav_ne_login bs bs.loginPath
      rw [← h]
      simp [BootStrap.startedNav, hf]
  · intro hf
    simp [BootStrap.startedNav, hf, BootStrap.pageLoginNav]
  · intro hf
    simp [BootStrap.startedNav, hf]
  · intro p n hp hpne _
    simp [BootStrap.pageHomeNav, hp, hpne]

/-- C7 witness: a bootstrap with both routePath and routeName configured
and a context with no explicit flag: the login branch is not taken and
pageHome prefers the path. -/
theorem started_policy_witness :
    ((BootStrap.make { routePath := some "/home", routeName := some "main" }).startedNav
          "#/" ((BootStrap.make { routePath := some "/home", routeName := some "main" }
            ).getContext 0).1
        = StartedNav.login
            (BootStrap.make { routePath := some "/home", routeName := some "main" }).loginPath
      ↔ ((BootStrap.make { routePath := some "/home", routeName := some "main" }
          ).getContext 0).1.checkUserLoggedin = some false)
    ∧ (((BootStrap.make { routePath := some "/home", routeName := some "main" }
          ).getContext 0).1.checkUserLoggedin ≠ some false →
        (BootStrap.make { routePath := some "/home", routeName := some "main" }).startedNav
            "#/" ((BootStrap.make { routePath := some "/home", routeName := some "main" }
              ).getContext 0).1
          = (BootStrap.make { routePath := some "/home", routeName := some "main" }
              ).pageHomeNav)
    ∧ (∀ p n : String,
        (BootStrap.make { routePath := some "/home", routeName := some "main" }).routePath
            = some p → p ≠ "" →
        (BootStrap.make { routePath := some "/home", routeName := some "main" }).routeName
            = some n →
        (BootStrap.make { routePath := some "/home", routeName := some "main" }).pageHomeNav
            = StartedNav.toPath p) :=
  started_policy (BootStrap.make { routePath := some "/home", routeName := some "main" })
    ((BootStrap.make { routePath := some "/home", routeName := some "main" }).getContext 0).1


/-- C10 counterexample: one non-root navigation into moduleThrow with a
rejecting loader, from the boot state: the guard callback fails, so
next() is never called and no allowed navigation has completed - yet the
captured routeContext was already assigned (line 60 runs before the try),
so a component created at this point observes a non-null ctx, and the
global error handler forwards to context.onError instead of leaving the
error unhandled. This refutes the claim that every component created
before the guard completes an allowed navigation observes a null
context. -/
theorem ctx_not_null_after_failed_navigation :
    (guardStep (BootStrap.make { modules := [moduleThrow] }) throwingLoaders
        GuardState.init targetT).2 = GuardOutcome.failed
    ∧ (componentCtx (guardStep (BootStrap.make { modules := [moduleThrow] })
        throwingLoaders GuardState.init targetT).1).isSome = true
    ∧ vueErrorHandler (componentCtx (guardStep (BootStrap.make { modules := [moduleThrow] })
        throwingLoaders GuardState.init targetT).1) = ErrorOutcome.forwarded :=
  ⟨rfl, rfl, rfl⟩

end VueSpaBoot
